import Mathlib

/-!
Verification development for the article-chat-system repository: a shallow
embedding of the query-understanding pipeline (planner, strategy executor,
strategies, cache) and the ingestion pipeline (facade, analyzer, Postgres
repository), with theorems settling the behavioural claims about them.

External collaborators (the generative-text provider, the HTTP fetcher, the
prompt factory's template rendering, JSON decoding of provider output, and
the vector index) are modelled as abstract fields of an `Env` record: each
is a function returning `Except String _`, mirroring Go's `(T, error)`.
The relational store is modelled as a list of rows keyed by URL, mirroring
the `articles` table of scripts/init.sql; `save`/`findByURL`/`findAll`
mirror the SQL statements of internal/repository/postgres.go column by
column. Go slices are Lean lists; Go's in-place `sort.Strings` is modelled
by returning the updated plan alongside the key.
-/

namespace ArticleChat

/-- internal/models/article.go: the Article record (current snapshot, with
`TextContent` and `Entities`). `processedAt` stands for the timestamp. -/
structure Article where
  url : String
  title : String
  excerpt : String
  textContent : String
  summary : String
  sentiment : String
  topics : List String
  entities : List String
  processedAt : Nat
deriving Repr, DecidableEq

/-- internal/planner/model.go: QueryPlan. `QueryIntent` is a Go string type,
so the intent is a `String` here, with the named constants below. -/
structure QueryPlan where
  intent : String
  targets : List String
  parameters : List String
  question : String
deriving Repr, DecidableEq

/-- internal/planner/model.go: the intent constants. -/
def IntentSummarize : String := "SUMMARIZE"

def IntentKeywords : String := "KEYWORDS"

def IntentSentiment : String := "SENTIMENT"

def IntentCompareTone : String := "COMPARE_TONE"

def IntentFindTopic : String := "FIND_BY_TOPIC"

def IntentComparePositive : String := "COMPARE_POSITIVITY"

def IntentFindCommonEntities : String := "FIND_COMMON_ENTITIES"

def IntentCompareAllSentiment : String := "COMPARE_ALL_SENTIMENT"

def IntentCompareMultiple : String := "COMPARE_MULTIPLE"

def IntentUnknown : String := "UNKNOWN"

/-! ## The relational store (internal/repository/postgres.go, scripts/init.sql) -/

/-- scripts/init.sql: one row of the `articles` table. The schema has an
`entities TEXT[]` column even though `Save` never writes it; `entities`
models that column (an unwritten column reads back as its default). -/
structure Row where
  url : String
  title : String
  excerpt : String
  summary : String
  sentiment : String
  topics : List String
  entities : List String
  processed_at : Nat
deriving Repr, DecidableEq

/-- The `articles` table: rows keyed by the primary key `url`. -/
abbrev Table := List Row

/-- `PostgresRepository.Save`: INSERT of (url, title, excerpt, summary,
sentiment, topics, processed_at) with ON CONFLICT (url) DO UPDATE SET
title, excerpt, summary, sentiment, topics. Neither branch touches the
`entities` column; the UPDATE branch does not touch `processed_at`. -/
def save (t : Table) (a : Article) : Table :=
  match t with
  | [] => [{ url := a.url, title := a.title, excerpt := a.excerpt,
             summary := a.summary, sentiment := a.sentiment,
             topics := a.topics, entities := [],
             processed_at := a.processedAt }]
  | r :: rest =>
    if r.url = a.url then
      { r with title := a.title, excerpt := a.excerpt, summary := a.summary,
               sentiment := a.sentiment, topics := a.topics } :: rest
    else
      r :: save rest a

/-- The scan shared by `FindByURL` and `FindAll`: SELECT url, title,
excerpt, summary, sentiment, topics, processed_at — `entities` and
`text_content` are not in the column list, so those Article fields keep
their zero values. -/
def rowToArticle (r : Row) : Article :=
  { url := r.url, title := r.title, excerpt := r.excerpt, textContent := "",
    summary := r.summary, sentiment := r.sentiment, topics := r.topics,
    entities := [], processedAt := r.processed_at }

/-- `PostgresRepository.FindByURL`: WHERE url = $1; no row is `nil, nil`
in Go, `none` here. -/
def findByURL (t : Table) (u : String) : Option Article :=
  match t with
  | [] => none
  | r :: rest => if r.url = u then some (rowToArticle r) else findByURL rest u

/-- `PostgresRepository.FindAll`. -/
def findAll (t : Table) : List Article :=
  t.map rowToArticle

/-! ## The cache service (internal/cache/service.go) -/

/-- Lexicographic strict comparison of character lists by code point.
Go compares strings byte-wise, and UTF-8 byte order coincides with code
point order, so this is Go's `<` on strings. -/
def charListLt : List Char → List Char → Bool
  | [], [] => false
  | [], _ :: _ => true
  | _ :: _, [] => false
  | a :: as, b :: bs => if a = b then charListLt as bs else decide (a < b)

/-- Lexicographic `≤` on character lists by code point. -/
def charListLe : List Char → List Char → Bool
  | [], _ => true
  | _ :: _, [] => false
  | a :: as, b :: bs => if a = b then charListLe as bs else decide (a < b)

/-- Go's `<` on strings. -/
def strLt (a b : String) : Bool :=
  charListLt a.toList b.toList

/-- Go's `<=` on strings. -/
def strLe (a b : String) : Bool :=
  charListLe a.toList b.toList

/-- Go's `sort.Strings`: ascending lexicographic sort. -/
def sortStrings (l : List String) : List String :=
  l.insertionSort (fun a b => strLe a b = true)

/-- Go's `fmt.Sprintf("%v", s)` for a string slice: elements joined by
single spaces inside square brackets. -/
def goSliceFormat (l : List String) : String :=
  "[" ++ String.intercalate " " l ++ "]"

/-- `Service.GenerateCacheKey`. The Go code sorts `plan.Targets` IN PLACE
(`sort.Strings(plan.Targets)`) and then hashes
`fmt.Sprintf("%s:%v:%v", plan.Intent, plan.Targets, plan.Parameters)`.
The first component is that canonical serialization (the Go code applies
hex-encoded SHA-256 to it; SHA-256 is a deterministic function of this
string, so fingerprint equality is induced by equality of this string);
the second component is the plan as the call leaves it, with its targets
now sorted. -/
def generateCacheKey (p : QueryPlan) : String × QueryPlan :=
  let sorted := sortStrings p.targets
  (p.intent ++ ":" ++ goSliceFormat sorted ++ ":" ++ goSliceFormat p.parameters,
   { p with targets := sorted })

/-! ## External collaborators -/

/-- internal/processing/facade.go: the readable content extracted from a
fetched URL (`go-readability`'s result, as the Fetcher keeps it). -/
structure ParsedArticle where
  title : String
  textContent : String
  excerpt : String
deriving Repr, DecidableEq

/-- internal/processing/facade.go: `initialAnalysisResult`, the JSON shape
expected from the analysis generative call. -/
structure AnalysisResult where
  headline : String
  keyPoints : List String
  sentiment : String
  entities : List String
deriving Repr, DecidableEq

/-- The external collaborators of the pipeline, each a fallible function as
in the Go contracts: the fetcher (`readability.FromURL`), the generative
text port (`llm.Client.GenerateContent`, returning the response text), the
vector search port (`SearchSimilarArticles`), the prompt factory's
template-rendering methods, and the strict JSON decoders for the planner
plan and the analysis bundle. `now` stands for `time.Now()`. -/
structure Env where
  fetch : String → Except String ParsedArticle
  generate : String → Except String String
  searchSimilar : String → Nat → Except String (List Article)
  createPlannerPrompt : String → List Article → Except String String
  createSummarizePrompt : String → Except String String
  createKeywordsPrompt : String → String → Except String String
  createComparePositivityPrompt : String → List Article → Except String String
  createCompareMultiplePrompt : List Article → Except String String
  createInitialAnalysisPrompt : String → Except String String
  parsePlan : String → Except String QueryPlan
  parseAnalysis : String → Except String AnalysisResult
  now : Nat

/-! ## The ingestion facade (internal/processing/facade.go, current snapshot
with `fallbackAnalysis`) -/

/-- `Analyzer.fallbackAnalysis`: the deterministic substitute used when the
comprehensive analysis fails — generic summary built from title and
excerpt, neutral sentiment, empty entity and topic lists. -/
def fallbackAnalysis (art : Article) : Article :=
  { art with summary := "Summary for " ++ art.title ++ ": " ++ art.excerpt,
             sentiment := "neutral", entities := [], topics := [] }

/-- `Analyzer.InitialAnalysis`: render the analysis prompt over the
excerpt, make one generative call, parse its output strictly; on any of
the three failures substitute `fallbackAnalysis`. The Go method mutates
the article in place and always returns nil; here it returns the updated
article. -/
def initialAnalysis (env : Env) (art : Article) : Article :=
  match env.createInitialAnalysisPrompt art.excerpt with
  | .error _ => fallbackAnalysis art
  | .ok prompt =>
    match env.generate prompt with
    | .error _ => fallbackAnalysis art
    | .ok text =>
      match env.parseAnalysis text with
      | .error _ => fallbackAnalysis art
      | .ok analysis =>
        { art with
          summary := analysis.headline ++ "\n- "
                       ++ String.intercalate "\n- " analysis.keyPoints,
          sentiment := analysis.sentiment,
          topics := analysis.entities,
          entities := analysis.entities }

/-- `Facade.AddNewArticle`: existence check, fetch, analysis (its failure
only logged — and with the current `InitialAnalysis` impossible, since
every failure path substitutes the fallback), persist via
`articleSvc.StoreArticle` (= `pgRepo.Save`), then best-effort vector
writes that never change the outcome (modelled as the no-ops they are for
the returned value and the relational store). -/
def addNewArticle (env : Env) (t : Table) (url : String) :
    Except String Article × Table :=
  match findByURL t url with
  | some _ => (.error ("article from URL " ++ url ++ " already exists"), t)
  | none =>
    match env.fetch url with
    | .error e => (.error ("fetcher failed: " ++ e), t)
    | .ok parsed =>
      let newArticle : Article :=
        { url := url, title := parsed.title, excerpt := parsed.excerpt,
          textContent := "", summary := "", sentiment := "", topics := [],
          entities := [], processedAt := env.now }
      let analyzed := initialAnalysis env newArticle
      (.ok analyzed, save t analyzed)

/-! ## The HTTP boundary for ingestion (internal/transport/http/handler.go,
`handleAddArticle`) -/

/-- Characters-level model of Go's `strings.HasPrefix` used by the
substring scan below. -/
def charsPrefix : List Char → List Char → Bool
  | [], _ => true
  | _ :: _, [] => false
  | a :: as, b :: bs => a == b && charsPrefix as bs

/-- Characters-level model of Go's `strings.Contains`. -/
def charsContains (sub : List Char) : List Char → Bool
  | [] => sub.isEmpty
  | c :: rest => charsPrefix sub (c :: rest) || charsContains sub rest

/-- Go's `strings.Contains(s, sub)`. -/
def strContains (s sub : String) : Bool :=
  charsContains sub.toList s.toList

/-- `Handler.handleAddArticle`'s error mapping: an error whose message
contains "already exists" becomes HTTP 409 Conflict, any other error 500. -/
def addArticleErrorStatus (msg : String) : Nat :=
  if strContains msg "already exists" then 409 else 500

/-! ## The planner (internal/planner/service.go, current snapshot with the
vector-search context step) -/

/-- `plannerService.CreatePlan`: try the top-5 semantic search for context;
on search error fall back to the whole corpus (`GetAllArticles`, which is
`FindAll` with errors flattened to the empty list); render the planner
prompt, make one generative call, parse strictly. Each of the three later
steps is a hard error. -/
def createPlan (env : Env) (t : Table) (query : String) :
    Except String QueryPlan :=
  let relevantArticles :=
    match env.searchSimilar query 5 with
    | .error _ => findAll t
    | .ok arts => arts
  match env.createPlannerPrompt query relevantArticles with
  | .error e => .error ("failed to create planner prompt: " ++ e)
  | .ok prompt =>
    match env.generate prompt with
    | .error e => .error ("planner LLM call failed: " ++ e)
    | .ok text =>
      match env.parsePlan text with
      | .error e => .error ("failed to unmarshal plan from LLM response: " ++ e)
      | .ok plan => .ok plan

/-! ## Strategies (internal/strategies). Each `doExecute` step takes the
environment, the relational table (through which `articleSvc.GetArticle`,
`GetAllArticles` and `StoreArticle` act) and the plan, and returns Go's
`(string, error)` as `Except String String`, together with the table as
the step leaves it. `articleSvc.CallSynthesisLLM` forwards to the
generative port, so it is `env.generate`. -/

/-- The result/state pair every strategy step returns. -/
abbrev StratResult := Except String String × Table

/-- internal/strategies/summarize.go, `summarizeArticle`: return the stored
summary when one exists; otherwise fetch the content on demand, synthesize
a summary with one generative call, store the (possibly new) article and
return the summary. -/
def summarizeArticle (env : Env) (t : Table) (plan : QueryPlan) : StratResult :=
  match plan.targets with
  | [] => (.ok "Please specify which article you want to summarize.", t)
  | targetURL :: _ =>
    let (art, found) :=
      match findByURL t targetURL with
      | some a => (a, true)
      | none =>
        ({ url := targetURL, title := "", excerpt := "", textContent := "",
           summary := "", sentiment := "", topics := [], entities := [],
           processedAt := 0 }, false)
    if art.summary ≠ "" then
      (.ok art.summary, t)
    else
      match env.fetch art.url with
      | .error e => (.error ("failed to fetch article content: " ++ e), t)
      | .ok articleData =>
        let art := { art with title := articleData.title,
                              excerpt := articleData.excerpt }
        match env.createSummarizePrompt articleData.textContent with
        | .error e => (.error e, t)
        | .ok prompt =>
          match env.generate prompt with
          | .error e => (.error e, t)
          | .ok summary =>
            -- both the found and the not-found branch call StoreArticle
            let art := { art with summary := summary }
            let _ := found
            (.ok art.summary, save t art)

/-- Keywords strategy (`extractKeywords`): prefer the stored topics and
entities; fall back to one generative call over title and summary. -/
def extractKeywords (env : Env) (t : Table) (plan : QueryPlan) : StratResult :=
  match plan.targets with
  | [] => (.ok "Please specify which article you want to extract keywords from.", t)
  | url :: _ =>
    match findByURL t url with
    | none => (.ok "I couldn't find the requested article.", t)
    | some art =>
      if art.topics.length > 0 || art.entities.length > 0 then
        let topicsPart :=
          if art.topics.length > 0 then
            "Main Topics:\n" ++ String.join (art.topics.map (fun tp => "- " ++ tp ++ "\n"))
          else ""
        let entitiesPart :=
          if art.entities.length > 0 then
            "\nKey Entities:\n" ++ String.join (art.entities.map (fun e => "- " ++ e ++ "\n"))
          else ""
        (.ok ("KEYWORDS extracted from the article:\n\n" ++ topicsPart ++ entitiesPart), t)
      else
        match env.createKeywordsPrompt art.title art.summary with
        | .error e => (.error e, t)
        | .ok prompt => (env.generate prompt, t)

/-- internal/strategies/sentiment.go, `getSentimentDescription`: the coarse
descriptive label for a stored sentiment value. -/
def getSentimentDescription (s : String) : String :=
  if s = "" then "Unknown"
  else
    let ls := s.toLower
    if ls = "positive" || ls = "pos" then "Positive"
    else if ls = "negative" || ls = "neg" then "Negative"
    else if ls = "neutral" || ls = "neu" then "Neutral"
    else if ls = "0.7" || ls = "0.8" || ls = "0.9" || ls = "1.0" then "Very Positive"
    else if ls = "0.5" || ls = "0.6" then "Somewhat Positive"
    else if ls = "0.1" || ls = "0.2" || ls = "0.3" || ls = "0.4" then "Slightly Positive"
    else if ls = "0.0" then "Neutral"
    else if ls = "-0.1" || ls = "-0.2" then "Slightly Negative"
    else if ls = "-0.3" || ls = "-0.4" then "Somewhat Negative"
    else if ls = "-0.7" || ls = "-0.8" || ls = "-0.9" || ls = "-1.0" then "Very Negative"
    else if ls = "-0.5" || ls = "-0.6" then "Somewhat Negative"
    else s

/-- One line of the sentiment report for target number `i+1`; the flag says
whether the article was found. -/
def sentimentLine (t : Table) (i : Nat) (target : String) : String × Bool :=
  match findByURL t target with
  | none => ("Article " ++ toString (i + 1) ++ ": Could not find article at " ++ target, false)
  | some art =>
    if art.sentiment ≠ "" then
      ("Article " ++ toString (i + 1) ++ ": '" ++ art.title ++ "' - Sentiment: "
         ++ art.sentiment ++ " (" ++ getSentimentDescription art.sentiment ++ ")", true)
    else
      ("Article " ++ toString (i + 1) ++ ": '" ++ art.title
         ++ "' - Sentiment analysis not available", true)

/-- internal/strategies/sentiment.go, `analyzeSentiment`: per-target report;
targets that are not found are reported individually, and only when no
target resolves at all does the answer become the "no articles" message. -/
def analyzeSentiment (_env : Env) (t : Table) (plan : QueryPlan) : StratResult :=
  match plan.targets with
  | [] => (.ok "Please specify which article you want to analyze sentiment for.", t)
  | _ :: _ =>
    let lines := plan.targets.enum.map (fun p => sentimentLine t p.1 p.2)
    let foundArticles := (lines.filter (fun p => p.2)).length
    if foundArticles = 0 then
      (.ok "No articles found for sentiment analysis.", t)
    else
      (.ok ("Sentiment Analysis Results:\n\n"
              ++ String.intercalate "\n" (lines.map (fun p => p.1))), t)

/-- Compare-tone strategy (`compareToneArticles`): needs two targets, looks
both up (an unresolved target is a non-error message), then one generative
call over the two summaries. -/
def compareToneArticles (env : Env) (t : Table) (plan : QueryPlan) : StratResult :=
  match plan.targets with
  | t1 :: t2 :: _ =>
    match findByURL t t1 with
    | none => (.ok ("Article not found: " ++ t1), t)
    | some art1 =>
      match findByURL t t2 with
      | none => (.ok ("Article not found: " ++ t2), t)
      | some art2 =>
        let comparisonContent :=
          "Article 1 Summary: " ++ art1.summary ++ "\n\n"
            ++ "Article 2 Summary: " ++ art2.summary
        let prompt :=
          "Compare the tone and writing style of these two articles:\n\n"
            ++ comparisonContent
            ++ "\n\nIdentify key differences in tone, formality, perspective, and overall approach. Provide specific examples from the summaries."
        match env.generate prompt with
        | .error e => (.error ("failed to generate tone comparison: " ++ e), t)
        | .ok result => (.ok result, t)
  | _ => (.ok "Please provide at least two articles to compare tone.", t)

/-- internal/strategies/find_topic.go, `findTopicArticles`: substring match
of the lower-cased topic phrase against title, summary and topics of every
stored article; no match is a non-error message. -/
def findTopicArticles (_env : Env) (t : Table) (plan : QueryPlan) : StratResult :=
  match plan.parameters with
  | [] => (.ok "Please specify a topic to search for.", t)
  | _ :: _ =>
    let topic := String.intercalate " " plan.parameters
    let allArticles := findAll t
    if allArticles.length = 0 then
      (.ok "No articles found in the database.", t)
    else
      let matching := allArticles.filter (fun a =>
        strContains
          (a.title ++ " " ++ a.summary ++ " " ++ String.intercalate " " a.topics).toLower
          topic.toLower)
      if matching.length = 0 then
        (.ok ("No articles found discussing '" ++ topic ++ "'."), t)
      else
        let names := String.intercalate "\n"
          (matching.enum.map (fun p => toString (p.1 + 1) ++ ". " ++ p.2.title))
        let detail := String.intercalate "\n\n"
          (matching.enum.map (fun p =>
            "Article " ++ toString (p.1 + 1) ++ ": " ++ p.2.title
              ++ "\nSummary: " ++ p.2.summary))
        (.ok ("Found " ++ toString matching.length ++ " articles discussing '"
                ++ topic ++ "':\n\n" ++ names ++ "\n\nDetailed Analysis:\n" ++ detail), t)

/-- Compare-positivity strategy (`comparePositivity`): find-then-compare via
vector search when no targets are given; with explicit targets, looks up
the first two and treats a missing one as a non-error message. -/
def comparePositivity (env : Env) (t : Table) (plan : QueryPlan) : StratResult :=
  match plan.parameters with
  | [] => (.ok "Please specify the topic for comparison.", t)
  | topic :: _ =>
    if plan.targets.length = 0 then
      match env.searchSimilar topic 3 with
      | .error e => (.error ("failed to find articles for comparison: " ++ e), t)
      | .ok candidateArticles =>
        if candidateArticles.length < 2 then
          (.ok "I could not find enough relevant articles to perform a comparison.", t)
        else
          match env.createComparePositivityPrompt topic candidateArticles with
          | .error e => (.error e, t)
          | .ok prompt => (env.generate prompt, t)
    else if plan.targets.length < 2 then
      (.ok "Please specify at least two articles to compare.", t)
    else
      match plan.targets with
      | t1 :: t2 :: _ =>
        match findByURL t t1, findByURL t t2 with
        | some art1, some art2 =>
          match env.createComparePositivityPrompt topic [art1, art2] with
          | .error e => (.error e, t)
          | .ok prompt => (env.generate prompt, t)
        | _, _ => (.ok "Could not find one or both of the specified articles.", t)
      | _ => (.ok "Please specify at least two articles to compare.", t)

/-- internal/strategies/compare_multiple.go: the target-collection loop of
`compareMultipleArticles` — the first target with no stored article makes
the whole strategy fail with an error. -/
def collectArticles (t : Table) : List String → Except String (List Article)
  | [] => .ok []
  | url :: rest =>
    match findByURL t url with
    | none => .error ("could not find article with URL: " ++ url)
    | some art =>
      match collectArticles t rest with
      | .error e => .error e
      | .ok arts => .ok (art :: arts)

/-- internal/strategies/compare_multiple.go, `compareMultipleArticles`:
fewer than two targets is a non-error message, but any unresolvable target
among them is an error. -/
def compareMultipleArticles (env : Env) (t : Table) (plan : QueryPlan) :
    StratResult :=
  if plan.targets.length < 2 then
    (.ok "Please specify at least two articles to compare.", t)
  else
    match collectArticles t plan.targets with
    | .error e => (.error e, t)
    | .ok articlesToCompare =>
      match env.createCompareMultiplePrompt articlesToCompare with
      | .error e => (.error e, t)
      | .ok prompt => (env.generate prompt, t)

/-- repository `EntityCount`: an entity with its frequency. -/
structure EntityCount where
  entity : String
  count : Nat
deriving Repr, DecidableEq

/-- One step of `entityCounts[topic]++` on the Go map, modelled as an
association list in first-insertion order. Go leaves map iteration order
unspecified (and randomizes it); the model fixes the one deterministic
order available to it, and the theorems note where this matters. -/
def bumpEntity (m : List (String × Nat)) (e : String) : List (String × Nat) :=
  match m with
  | [] => [(e, 1)]
  | (k, v) :: rest =>
    if k = e then (k, v + 1) :: rest else (k, v) :: bumpEntity rest e

/-- The counting loops of `ArticleService.FindCommonEntities`: every
non-empty topic of every article bumps its counter. -/
def countTopics (articles : List Article) : List (String × Nat) :=
  articles.foldl
    (fun m a => a.topics.foldl (fun m tp => if tp ≠ "" then bumpEntity m tp else m) m)
    []

/-- The inner `j` loop of the selection sort in
`ArticleService.FindCommonEntities` for a fixed `i`: `cur` is `result[i]`,
the list is `result[i+1:]`; whenever a strictly larger count appears the
two are swapped. Returns the final `result[i]` and the rearranged tail. -/
def selPass (cur : EntityCount) : List EntityCount → EntityCount × List EntityCount
  | [] => (cur, [])
  | x :: xs =>
    if cur.count < x.count then
      let r := selPass x xs
      (r.1, cur :: r.2)
    else
      let r := selPass cur xs
      (r.1, x :: r.2)

/-- The outer `i` loop of the selection sort: the nested for-loop runs the
inner pass once per position, so the iteration count is the list length
(`selPass` preserves the tail's length). -/
def selSortFuel : Nat → List EntityCount → List EntityCount
  | 0, _ => []
  | _ + 1, [] => []
  | n + 1, x :: xs =>
    let r := selPass x xs
    r.1 :: selSortFuel n r.2

/-- The full descending-by-count selection sort of
`ArticleService.FindCommonEntities`. -/
def selSort (l : List EntityCount) : List EntityCount :=
  selSortFuel l.length l

/-- internal/article/service.go, `ArticleService.FindCommonEntities`
(in-memory snapshot): gather the requested articles (all of them when no
URL is given, silently skipping URLs with no stored article), count their
non-empty topics, sort by count descending, return the top 10. -/
def findCommonEntitiesSvc (t : Table) (articleURLs : List String) :
    List EntityCount :=
  let articles :=
    if articleURLs.length = 0 then findAll t
    else articleURLs.filterMap (findByURL t)
  if articles.length = 0 then []
  else
    let result := (countTopics articles).map (fun p => EntityCount.mk p.1 p.2)
    let sorted := selSort result
    sorted.take (min 10 sorted.length)

/-- internal/strategies/find_common_entities.go, `findCommonEntities`:
delegate to the service and render the counts; an empty aggregate is a
non-error message. -/
def findCommonEntitiesStrategy (_env : Env) (t : Table) (plan : QueryPlan) :
    StratResult :=
  let entityCounts :=
    if plan.targets.length = 0 then findCommonEntitiesSvc t []
    else findCommonEntitiesSvc t plan.targets
  if entityCounts.length = 0 then
    (.ok "No entities found in the database.", t)
  else
    (.ok ("Found " ++ toString entityCounts.length ++ " entities:\n"
            ++ String.join (entityCounts.map (fun e =>
                 "- " ++ e.entity ++ ": " ++ toString e.count ++ " occurrences\n"))), t)

/-- One line of the compare-all-sentiment report: stored sentiment when
present, otherwise a per-article generative fallback whose own failure is
reported in the line, never as a strategy error. -/
def compareAllSentimentLine (env : Env) (topic : String) (i : Nat)
    (a : Article) : String :=
  if a.sentiment ≠ "" then
    "Article " ++ toString (i + 1) ++ ": " ++ a.title ++ " - Sentiment: " ++ a.sentiment
  else
    let prompt :=
      "Analyze the sentiment of this article about " ++ topic
        ++ ". Return only the sentiment (positive/negative/neutral) and a brief explanation:\n\nTitle: "
        ++ a.title ++ "\nSummary: " ++ a.summary
    match env.generate prompt with
    | .error _ =>
      "Article " ++ toString (i + 1) ++ ": " ++ a.title ++ " - Sentiment: Unable to analyze"
    | .ok sentiment =>
      "Article " ++ toString (i + 1) ++ ": " ++ a.title ++ " - Sentiment: " ++ sentiment

/-- Compare-all-sentiment strategy (`compareAllSentiment`): vector search
for the topic (search failure is a strategy error), then a per-article
sentiment report and a closing summary sentence. -/
def compareAllSentiment (env : Env) (t : Table) (plan : QueryPlan) : StratResult :=
  match plan.parameters with
  | [] => (.ok "Please specify the topic for sentiment comparison.", t)
  | topic :: _ =>
    match env.searchSimilar topic 5 with
    | .error e => (.error ("failed to find articles for sentiment comparison: " ++ e), t)
    | .ok relevantArticles =>
      if relevantArticles.length = 0 then
        (.ok ("I could not find any articles discussing '" ++ topic
                ++ "' to compare sentiment."), t)
      else
        let lines := relevantArticles.enum.map
          (fun p => compareAllSentimentLine env topic p.1 p.2)
        let body := String.join (lines.map (fun l => l ++ "\n"))
        let closing :=
          "\nFound " ++ toString relevantArticles.length ++ " articles discussing '"
            ++ topic ++ "'. "
            ++ (if relevantArticles.length > 1 then
                  "Compare the sentiment patterns above to identify trends and differences."
                else "")
        (.ok ("Sentiment Analysis for Articles about '" ++ topic ++ "':\n\n"
                ++ body ++ closing), t)

/-! ## The executor (strategies `Executor`, `BaseStrategy`) -/

/-- A strategy's `doExecute` step. -/
abbrev StratFun := Env → Table → QueryPlan → StratResult

/-- `BaseStrategy.Execute`, the template method: validate the plan (an
empty intent makes the validation error's text the ANSWER, with nil
error), run the step, wrap a step error, prefix a successful answer. -/
def baseExecute (doExec : StratFun) (env : Env) (t : Table)
    (plan : QueryPlan) : StratResult :=
  if plan.intent = "" then
    (.ok "invalid plan provided", t)
  else
    match doExec env t plan with
    | (.error e, t') => (.error ("error during specific execution: " ++ e), t')
    | (.ok result, t') => (.ok ("🤖 Here is your answer:\n\n" ++ result), t')

/-- `NewExecutor`'s registry: the eight registered intents, in the map's
textual order. `COMPARE_MULTIPLE` and `UNKNOWN` are not registered. -/
def registeredIntents : List String :=
  [IntentSummarize, IntentKeywords, IntentSentiment, IntentCompareTone,
   IntentFindTopic, IntentComparePositive, IntentFindCommonEntities,
   IntentCompareAllSentiment]

/-- The registry lookup `e.Strategies[plan.Intent]`. -/
def strategyFor (intent : String) : Option StratFun :=
  if intent = IntentSummarize then some summarizeArticle
  else if intent = IntentKeywords then some extractKeywords
  else if intent = IntentSentiment then some analyzeSentiment
  else if intent = IntentCompareTone then some compareToneArticles
  else if intent = IntentFindTopic then some findTopicArticles
  else if intent = IntentComparePositive then some comparePositivity
  else if intent = IntentFindCommonEntities then some findCommonEntitiesStrategy
  else if intent = IntentCompareAllSentiment then some compareAllSentiment
  else none

/-- `Executor.ExecutePlan`: registry lookup; an unregistered intent gets
the polite fallback answer with nil error, a registered one runs through
the template method. -/
def executePlan (env : Env) (t : Table) (plan : QueryPlan) : StratResult :=
  match strategyFor plan.intent with
  | none =>
    (.ok ("I'm sorry, I don't know how to handle the intent: " ++ plan.intent), t)
  | some strat => baseExecute strat env t plan

/-! ## Concrete instances used by counterexamples and witnesses -/

/-- An environment in which every external collaborator fails: the
strategies' pure control flow is all that runs. -/
def envTriv : Env :=
  { fetch := fun _ => .error "unavailable",
    generate := fun _ => .error "unavailable",
    searchSimilar := fun _ _ => .error "unavailable",
    createPlannerPrompt := fun _ _ => .error "unavailable",
    createSummarizePrompt := fun _ => .error "unavailable",
    createKeywordsPrompt := fun _ _ => .error "unavailable",
    createComparePositivityPrompt := fun _ _ => .error "unavailable",
    createCompareMultiplePrompt := fun _ => .error "unavailable",
    createInitialAnalysisPrompt := fun _ => .error "unavailable",
    parsePlan := fun _ => .error "unavailable",
    parseAnalysis := fun _ => .error "unavailable",
    now := 0 }

/-- An environment whose fetcher, summarize-prompt rendering and generative
port succeed with fixed values. -/
def envSummarizeOk : Env :=
  { envTriv with
    fetch := fun _ => .ok { title := "T", textContent := "X", excerpt := "E" },
    createSummarizePrompt := fun _ => .ok "P",
    generate := fun _ => .ok "S" }

/-- An environment whose fetcher and analysis-prompt rendering succeed but
whose generative port is down: the ingestion analysis must degrade. -/
def envAnalysisFail : Env :=
  { envTriv with
    fetch := fun _ => .ok { title := "T", textContent := "X", excerpt := "E" },
    createInitialAnalysisPrompt := fun s => .ok ("ANALYZE:" ++ s) }

/-- A fixed plan produced by a parse in `envPlannerOk`. -/
def plannedPlan : QueryPlan :=
  { intent := "SUMMARIZE", targets := ["u"], parameters := [], question := "q" }

/-- An environment whose vector search is down but whose planner prompt,
generative call and parse succeed. -/
def envPlannerOk : Env :=
  { envTriv with
    createPlannerPrompt := fun q _ => .ok ("PLAN:" ++ q),
    generate := fun _ => .ok "PLANJSON",
    parsePlan := fun _ => .ok plannedPlan }

/-- A stored article about AI and Cloud. -/
def rowOne : Row :=
  { url := "u1", title := "T1", excerpt := "E1", summary := "S1",
    sentiment := "positive", topics := ["AI", "AI", "Cloud"], entities := [],
    processed_at := 0 }

/-- A second stored article about Cloud. -/
def rowTwo : Row :=
  { url := "u2", title := "T2", excerpt := "E2", summary := "S2",
    sentiment := "", topics := ["Cloud"], entities := [], processed_at := 0 }

/-- The spec's worked example: topics `["AI","AI","Cloud"]` and `["Cloud"]`. -/
def exampleTable : Table := [rowOne, rowTwo]

/-- A table in which only `u1` resolves. -/
def oneArticleTable : Table := [rowOne]

/-- An article whose equal-count topics are first encountered in
anti-alphabetical order. -/
def tieRow : Row :=
  { url := "u3", title := "T3", excerpt := "E3", summary := "S3",
    sentiment := "", topics := ["Cloud", "AI", "AI", "Cloud"], entities := [],
    processed_at := 0 }

/-- The table exposing the missing tie-break. -/
def tieTable : Table := [tieRow]

/-- A stored article whose summary is empty (ingested before any summary
was produced). -/
def rowEmptySummary : Row :=
  { url := "u4", title := "T4", excerpt := "E4", summary := "",
    sentiment := "", topics := [], entities := [], processed_at := 0 }

/-- The table holding only the summary-less article. -/
def emptySummaryTable : Table := [rowEmptySummary]

/-- A summarize plan for the stored, summary-less article. -/
def planSummarizeU4 : QueryPlan :=
  { intent := "SUMMARIZE", targets := ["u4"], parameters := [], question := "" }

/-- The unknown-intent plan. -/
def planUnknown : QueryPlan :=
  { intent := "UNKNOWN", targets := [], parameters := [], question := "what" }

/-- A summarize plan for an unstored URL. -/
def planSummarizeU : QueryPlan :=
  { intent := "SUMMARIZE", targets := ["u"], parameters := [], question := "" }

/-- A compare-multiple plan with one resolvable and one unresolvable target. -/
def planCompareMulti : QueryPlan :=
  { intent := "COMPARE_MULTIPLE", targets := ["u1", "zz"], parameters := [],
    question := "" }

/-- A compare-positivity plan with one resolvable and one unresolvable target. -/
def planComparePos : QueryPlan :=
  { intent := "COMPARE_POSITIVITY", targets := ["u1", "zz"],
    parameters := ["topic"], question := "" }

/-- A plan whose single target contains an embedded space. -/
def planSpacedTarget : QueryPlan :=
  { intent := "SENTIMENT", targets := ["a b"], parameters := [], question := "" }

/-- A plan with the two targets the spaced one collides with. -/
def planSplitTargets : QueryPlan :=
  { intent := "SENTIMENT", targets := ["a", "b"], parameters := [], question := "" }

/-- A plan whose targets the planner produced out of sorted order. -/
def planUnsorted : QueryPlan :=
  { intent := "SUMMARIZE", targets := ["b", "a"], parameters := ["p"],
    question := "q" }

/-- The same request with the targets permuted. -/
def planUnsortedPerm : QueryPlan :=
  { intent := "SUMMARIZE", targets := ["a", "b"], parameters := ["p"],
    question := "q" }

/-! ## Order lemmas for the target sort -/

theorem charListLe_total : ∀ a b : List Char,
    charListLe a b = true ∨ charListLe b a = true := by
  intro a
  induction a with
  | nil => intro b; left; rfl
  | cons x xs ih =>
    intro b
    cases b with
    | nil => right; rfl
    | cons y ys =>
      by_cases h : x = y
      · subst h
        rcases ih ys with h1 | h1
        · left; simpa [charListLe] using h1
        · right; simpa [charListLe] using h1
      · rcases lt_or_gt_of_ne h with hlt | hgt
        · left; simp [charListLe, h, hlt]
        · right; simp [charListLe, Ne.symm h, hgt]

theorem charListLe_trans : ∀ a b c : List Char,
    charListLe a b = true → charListLe b c = true → charListLe a c = true := by
  intro a
  induction a with
  | nil => intro b c _ _; rfl
  | cons x xs ih =>
    intro b c hab hbc
    cases b with
    | nil => simp [charListLe] at hab
    | cons y ys =>
      cases c with
      | nil => simp [charListLe] at hbc
      | cons z zs =>
        by_cases hxy : x = y
        · subst hxy
          simp only [charListLe, if_pos rfl] at hab
          by_cases hyz : x = z
          · subst hyz
            simp only [charListLe, if_pos rfl] at hbc ⊢
            exact ih ys zs hab hbc
          · simp only [charListLe, if_neg hyz] at hbc ⊢
            exact hbc
        · simp only [charListLe, if_neg hxy, decide_eq_true_eq] at hab
          by_cases hyz : y = z
          · subst hyz
            simp [charListLe, hxy, hab]
          · simp only [charListLe, if_neg hyz, decide_eq_true_eq] at hbc
            have hxz : x < z := lt_trans hab hbc
            have hne : x ≠ z := ne_of_lt hxz
            simp [charListLe, hne, hxz]

theorem charListLe_antisymm : ∀ a b : List Char,
    charListLe a b = true → charListLe b a = true → a = b := by
  intro a
  induction a with
  | nil =>
    intro b _ hba
    cases b with
    | nil => rfl
    | cons y ys => simp [charListLe] at hba
  | cons x xs ih =>
    intro b hab hba
    cases b with
    | nil => simp [charListLe] at hab
    | cons y ys =>
      by_cases hxy : x = y
      · subst hxy
        simp only [charListLe, if_pos rfl] at hab hba
        exact congrArg (x :: ·) (ih ys hab hba)
      · simp only [charListLe, if_neg hxy, decide_eq_true_eq] at hab
        simp only [charListLe, if_neg (Ne.symm hxy), decide_eq_true_eq] at hba
        exact absurd hab (lt_asymm hba)

instance strLeTotal : IsTotal String (fun a b => strLe a b = true) :=
  ⟨fun a b => charListLe_total a.toList b.toList⟩

instance strLeTrans : IsTrans String (fun a b => strLe a b = true) :=
  ⟨fun a b c => charListLe_trans a.toList b.toList c.toList⟩

instance strLeAntisymm : IsAntisymm String (fun a b => strLe a b = true) :=
  ⟨fun _ _ h1 h2 => String.toList_inj.mp (charListLe_antisymm _ _ h1 h2)⟩

/-- Sorting is invariant under permutation of the input: the sorted result
of either list is sorted and a rearrangement of the same elements. -/
theorem sortStrings_eq_of_perm {l1 l2 : List String} (h : l1.Perm l2) :
    sortStrings l1 = sortStrings l2 :=
  List.eq_of_perm_of_sorted
    (((List.perm_insertionSort _ l1).trans h).trans (List.perm_insertionSort _ l2).symm)
    (List.sorted_insertionSort _ l1) (List.sorted_insertionSort _ l2)

/-! ## Shared helper lemmas -/

theorem strategyFor_not_registered {intent : String}
    (h : intent ∉ registeredIntents) : strategyFor intent = none := by
  simp only [registeredIntents, List.mem_cons, List.not_mem_nil, or_false,
    not_or] at h
  obtain ⟨h1, h2, h3, h4, h5, h6, h7, h8⟩ := h
  simp [strategyFor, h1, h2, h3, h4, h5, h6, h7, h8]

/-- Saving an article makes it readable back under its URL, with exactly
the columns of the SELECT populated; only the processed timestamp depends
on whether the INSERT or the UPDATE branch ran. -/
theorem findByURL_save_self (t : Table) (a : Article) :
    ∃ pa, findByURL (save t a) a.url =
      some { url := a.url, title := a.title, excerpt := a.excerpt,
             textContent := "", summary := a.summary, sentiment := a.sentiment,
             topics := a.topics, entities := [], processedAt := pa } := by
  induction t with
  | nil => exact ⟨a.processedAt, by simp [save, findByURL, rowToArticle]⟩
  | cons r rest ih =>
    by_cases h : r.url = a.url
    · exact ⟨r.processed_at, by simp [save, h, findByURL, rowToArticle]⟩
    · obtain ⟨pa, hp⟩ := ih
      exact ⟨pa, by simp [save, h, findByURL, hp]⟩

theorem charsPrefix_refl : ∀ l : List Char, charsPrefix l l = true := by
  intro l
  induction l with
  | nil => rfl
  | cons c cs ih => simp [charsPrefix, ih]

theorem charsContains_append_self (sub pre : List Char) :
    charsContains sub (pre ++ sub) = true := by
  induction pre with
  | nil =>
    cases sub with
    | nil => rfl
    | cons c cs => simp [charsContains, charsPrefix_refl]
  | cons c cs ih => simp [charsContains, ih]

/-- The duplicate-URL error message always contains the substring the
handler's 409 test looks for. -/
theorem contains_already_exists (url : String) :
    strContains ("article from URL " ++ url ++ " already exists") "already exists" = true := by
  have h2 : (" already exists" : String).toList = ' ' :: ("already exists" : String).toList := rfl
  have happ : ∀ s t : String, (s ++ t).toList = s.toList ++ t.toList := fun _ _ => rfl
  unfold strContains
  rw [happ, happ, h2]
  have h3 := charsContains_append_self (("already exists" : String).toList)
    (("article from URL " : String).toList ++ (url.toList ++ [' ']))
  simpa [List.append_assoc] using h3

/-- The analysis step never changes the article's URL. -/
theorem initialAnalysis_url (env : Env) (art : Article) :
    (initialAnalysis env art).url = art.url := by
  unfold initialAnalysis
  split
  · rfl
  · split
    · rfl
    · split
      · rfl
      · rfl

/-! ## Claim theorems -/

/-- C1: for every plan whose intent is UNKNOWN or any other value absent
from the executor's registry, `ExecutePlan` returns the polite fallback
string with nil error — it neither errors nor touches the store. -/
theorem executePlan_unregistered (env : Env) (t : Table) (plan : QueryPlan)
    (h : plan.intent ∉ registeredIntents) :
    executePlan env t plan =
      (.ok ("I'm sorry, I don't know how to handle the intent: " ++ plan.intent), t) := by
  unfold executePlan
  rw [strategyFor_not_registered h]

/-- C1 witness: the UNKNOWN intent is not registered, and executing it in
the all-failing environment yields the fallback answer with nil error. -/
theorem executePlan_unregistered_witness :
    planUnknown.intent ∉ registeredIntents ∧
      executePlan envTriv [] planUnknown =
        (.ok ("I'm sorry, I don't know how to handle the intent: UNKNOWN"), []) :=
  ⟨by decide, executePlan_unregistered envTriv [] planUnknown (by decide)⟩

/-- C2 counterexample: two plans with equal intent and parameters whose
target lists are NOT permutations of each other (one is `["a b"]`, the
other `["a", "b"]`) serialize to the same cache-key string, hence to the
same SHA-256 fingerprint: differing targets do not guarantee a different
fingerprint. -/
theorem generateCacheKey_collision :
    (generateCacheKey planSpacedTarget).1 = (generateCacheKey planSplitTargets).1 ∧
    planSpacedTarget.intent = planSplitTargets.intent ∧
    planSpacedTarget.parameters = planSplitTargets.parameters ∧
    ¬ planSpacedTarget.targets.Perm planSplitTargets.targets := by
  refine ⟨by decide, rfl, rfl, fun h => ?_⟩
  exact absurd h.length_eq (by decide)

/-- C2 (amended): cache-key generation is deterministic and invariant
under permutation of the targets — equal intent, equal parameters and
rearranged targets give the same fingerprint; but distinct inputs need
not give distinct fingerprints, because the serialization is not
injective (see the counterexample). -/
theorem generateCacheKey_perm_invariant (p q : QueryPlan)
    (hi : p.intent = q.intent) (hpar : p.parameters = q.parameters)
    (ht : p.targets.Perm q.targets) :
    (generateCacheKey p).1 = (generateCacheKey q).1 := by
  simp [generateCacheKey, hi, hpar, sortStrings_eq_of_perm ht]

/-- C2 witness: the same request with targets `["b","a"]` and `["a","b"]`
hits the same cache key. -/
theorem generateCacheKey_perm_invariant_witness :
    (generateCacheKey planUnsorted).1 = (generateCacheKey planUnsortedPerm).1 :=
  generateCacheKey_perm_invariant planUnsorted planUnsortedPerm rfl rfl
    (List.Perm.swap "a" "b" [])

/-- C9 counterexample: `GenerateCacheKey` sorts `plan.Targets` in place, so
a plan whose planner-produced target order was `["b","a"]` holds
`["a","b"]` afterwards — the plan is NOT immutable across cache-key
generation and the executor no longer sees the planner's order. -/
theorem generateCacheKey_mutates_targets :
    (generateCacheKey planUnsorted).2.targets ≠ planUnsorted.targets ∧
    (generateCacheKey planUnsorted).2.targets = ["a", "b"] ∧
    planUnsorted.targets = ["b", "a"] :=
  ⟨by decide, by decide, rfl⟩

/-- C9 (amended): cache-key generation leaves the plan's intent,
parameters and question untouched and replaces the target list by its
sorted permutation (same multiset, sorted order instead of the planner's
order); dispatch and strategy execution read the plan without writing it. -/
theorem generateCacheKey_plan_effect (p : QueryPlan) :
    (generateCacheKey p).2.intent = p.intent ∧
    (generateCacheKey p).2.parameters = p.parameters ∧
    (generateCacheKey p).2.question = p.question ∧
    (generateCacheKey p).2.targets = sortStrings p.targets ∧
    (generateCacheKey p).2.targets.Perm p.targets :=
  ⟨rfl, rfl, rfl, rfl, List.perm_insertionSort _ _⟩

/-- C10: a save/read round trip through the Postgres repository populates
url, title, excerpt, summary, sentiment and topics but always returns an
empty entities list — the INSERT/UPDATE never writes the `entities`
column and the SELECT never scans it — and every article `FindAll`
returns likewise carries no entities. -/
theorem save_roundtrip_drops_entities (t : Table) (a : Article) :
    (∃ got, findByURL (save t a) a.url = some got ∧ got.entities = [] ∧
       got.url = a.url ∧ got.title = a.title ∧ got.excerpt = a.excerpt ∧
       got.summary = a.summary ∧ got.sentiment = a.sentiment ∧
       got.topics = a.topics) ∧
    ∀ x ∈ findAll (save t a), x.entities = [] := by
  obtain ⟨pa, hp⟩ := findByURL_save_self t a
  refine ⟨⟨_, hp, rfl, rfl, rfl, rfl, rfl, rfl, rfl⟩, ?_⟩
  intro x hx
  obtain ⟨r, _, hr⟩ := List.mem_map.mp hx
  exact hr ▸ rfl

/-- C3: for a URL not yet stored whose fetch succeeds, the first
`AddNewArticle` returns an Article carrying that url and stores a record
for it; a second call for the same URL fails with the duplicate error
(mapped to HTTP 409 by the handler) and returns the store unchanged, so
the first record survives untouched. -/
theorem addNewArticle_duplicate_rejected (env env2 : Env) (t : Table)
    (url : String) (parsed : ParsedArticle)
    (h0 : findByURL t url = none) (h1 : env.fetch url = .ok parsed) :
    ∃ a t1, addNewArticle env t url = (.ok a, t1) ∧ a.url = url ∧
      (∃ stored, findByURL t1 url = some stored) ∧
      addNewArticle env2 t1 url =
        (.error ("article from URL " ++ url ++ " already exists"), t1) ∧
      addArticleErrorStatus ("article from URL " ++ url ++ " already exists") = 409 := by
  have hmk : addNewArticle env t url =
      (.ok (initialAnalysis env
        { url := url, title := parsed.title, excerpt := parsed.excerpt,
          textContent := "", summary := "", sentiment := "", topics := [],
          entities := [], processedAt := env.now }),
       save t (initialAnalysis env
        { url := url, title := parsed.title, excerpt := parsed.excerpt,
          textContent := "", summary := "", sentiment := "", topics := [],
          entities := [], processedAt := env.now })) := by
    unfold addNewArticle
    rw [h0, h1]
  set a := initialAnalysis env
    { url := url, title := parsed.title, excerpt := parsed.excerpt,
      textContent := "", summary := "", sentiment := "", topics := [],
      entities := [], processedAt := env.now } with ha
  have haurl : a.url = url := initialAnalysis_url env _
  obtain ⟨pa, hfind⟩ := findByURL_save_self t a
  rw [haurl] at hfind
  refine ⟨a, save t a, hmk, haurl, ⟨_, hfind⟩, ?_, ?_⟩
  · unfold addNewArticle
    rw [hfind]
  · unfold addArticleErrorStatus
    rw [contains_already_exists]
    rfl

/-- C3 witness: ingesting "u" into the empty store succeeds, re-ingesting
it fails with the duplicate error and HTTP 409. -/
theorem addNewArticle_duplicate_rejected_witness :
    findByURL ([] : Table) "u" = none ∧
    envAnalysisFail.fetch "u" = .ok { title := "T", textContent := "X", excerpt := "E" } ∧
    (∃ a t1, addNewArticle envAnalysisFail [] "u" = (.ok a, t1) ∧ a.url = "u" ∧
      (∃ stored, findByURL t1 "u" = some stored) ∧
      addNewArticle envTriv t1 "u" =
        (.error ("article from URL " ++ "u" ++ " already exists"), t1) ∧
      addArticleErrorStatus ("article from URL " ++ "u" ++ " already exists") = 409) :=
  ⟨rfl, rfl, addNewArticle_duplicate_rejected envAnalysisFail envTriv [] "u"
    { title := "T", textContent := "X", excerpt := "E" } rfl rfl⟩

/-- C4: when the fetch succeeds but the analysis generative call fails, or
its output fails to parse, `AddNewArticle` still completes: it returns and
stores a partially populated Article with the deterministic fallback
values — the generic summary built from title and excerpt, neutral
sentiment, and empty entity and topic lists. -/
theorem addNewArticle_analysis_failure_fallback (env : Env) (t : Table)
    (url : String) (parsed : ParsedArticle) (prompt : String)
    (h0 : findByURL t url = none)
    (h1 : env.fetch url = .ok parsed)
    (h2 : env.createInitialAnalysisPrompt parsed.excerpt = .ok prompt)
    (h3 : (∃ e, env.generate prompt = .error e) ∨
          (∃ s e, env.generate prompt = .ok s ∧ env.parseAnalysis s = .error e)) :
    ∃ a, addNewArticle env t url = (.ok a, save t a) ∧
      a.summary = "Summary for " ++ parsed.title ++ ": " ++ parsed.excerpt ∧
      a.sentiment = "neutral" ∧ a.entities = [] ∧ a.topics = [] ∧
      a.url = url ∧ a.title = parsed.title ∧ a.excerpt = parsed.excerpt := by
  have hana : initialAnalysis env
      { url := url, title := parsed.title, excerpt := parsed.excerpt,
        textContent := "", summary := "", sentiment := "", topics := [],
        entities := [], processedAt := env.now } =
      fallbackAnalysis
      { url := url, title := parsed.title, excerpt := parsed.excerpt,
        textContent := "", summary := "", sentiment := "", topics := [],
        entities := [], processedAt := env.now } := by
    unfold initialAnalysis
    rcases h3 with ⟨e, he⟩ | ⟨s, e, hs, hp⟩
    · simp only [h2, he]
    · simp only [h2, hs, hp]
  refine ⟨fallbackAnalysis
      { url := url, title := parsed.title, excerpt := parsed.excerpt,
        textContent := "", summary := "", sentiment := "", topics := [],
        entities := [], processedAt := env.now }, ?_, rfl, rfl, rfl, rfl, rfl, rfl, rfl⟩
  simp only [addNewArticle, h0, h1, hana]

/-- C4 witness: ingesting "u" while the generative port is down yields the
fallback Article. -/
theorem addNewArticle_analysis_failure_fallback_witness :
    findByURL ([] : Table) "u" = none ∧
    envAnalysisFail.fetch "u" = .ok { title := "T", textContent := "X", excerpt := "E" } ∧
    envAnalysisFail.createInitialAnalysisPrompt "E" = .ok "ANALYZE:E" ∧
    envAnalysisFail.generate "ANALYZE:E" = .error "unavailable" ∧
    (∃ a, addNewArticle envAnalysisFail [] "u" = (.ok a, save [] a) ∧
      a.summary = "Summary for " ++ "T" ++ ": " ++ "E" ∧
      a.sentiment = "neutral" ∧ a.entities = [] ∧ a.topics = [] ∧
      a.url = "u" ∧ a.title = "T" ∧ a.excerpt = "E") :=
  ⟨rfl, rfl, rfl, rfl,
   addNewArticle_analysis_failure_fallback envAnalysisFail [] "u"
     { title := "T", textContent := "X", excerpt := "E" } "ANALYZE:E"
     rfl rfl rfl (Or.inl ⟨"unavailable", rfl⟩)⟩

/-- C8: when the planner's semantic-search context step errors, CreatePlan
does not fail on that account — it falls back to the whole corpus as
context and produces the plan whenever prompt construction, the generative
call and the parse succeed. -/
theorem createPlan_search_failure_fallback (env : Env) (t : Table)
    (query e prompt text : String) (plan : QueryPlan)
    (h1 : env.searchSimilar query 5 = .error e)
    (h2 : env.createPlannerPrompt query (findAll t) = .ok prompt)
    (h3 : env.generate prompt = .ok text)
    (h4 : env.parsePlan text = .ok plan) :
    createPlan env t query = .ok plan := by
  unfold createPlan
  rw [h1]
  simp only [h2, h3, h4]

/-- C8 witness: with the vector search down and the rest healthy, the
planner still produces the plan. -/
theorem createPlan_search_failure_fallback_witness :
    envPlannerOk.searchSimilar "q" 5 = .error "unavailable" ∧
    createPlan envPlannerOk [] "q" = .ok plannedPlan :=
  ⟨rfl, createPlan_search_failure_fallback envPlannerOk [] "q" "unavailable"
    "PLAN:q" "PLANJSON" plannedPlan rfl rfl rfl rfl⟩

/-- Saving an article always leaves it findable under its URL. -/
theorem findByURL_save_isSome (t : Table) (a : Article) :
    (findByURL (save t a) a.url).isSome = true := by
  obtain ⟨pa, hp⟩ := findByURL_save_self t a
  rw [hp]
  rfl

/-- `findByURL_save_isSome` stated at any name for the article's URL. -/
theorem findByURL_save_isSome2 (t : Table) (a : Article) (u : String)
    (h : a.url = u) : (findByURL (save t a) u).isSome = true := by
  subst h
  exact findByURL_save_isSome t a

/-- An article `FindByURL` returns carries the URL it was looked up by. -/
theorem findByURL_url : ∀ (t : Table) (u : String) (a : Article),
    findByURL t u = some a → a.url = u := by
  intro t u a
  induction t with
  | nil => intro h; simp [findByURL] at h
  | cons r rest ih =>
    intro h
    by_cases hr : r.url = u
    · simp only [findByURL, if_pos hr] at h
      have h2 := Option.some.inj h
      rw [← h2]
      exact hr
    · simp only [findByURL, if_neg hr] at h
      exact ih h

/-- C6 counterexample: for a Summarize plan whose first target URL "u" has
no stored Article, the strategy does NOT fail with a not-found error — it
fetches the page on demand, synthesizes a summary with one generative
call, returns it with nil error, and stores the new article. -/
theorem summarize_on_demand_counterexample :
    findByURL ([] : Table) "u" = none ∧
    (summarizeArticle envSummarizeOk [] planSummarizeU).1 = .ok "S" ∧
    (∃ stored, findByURL (summarizeArticle envSummarizeOk [] planSummarizeU).2 "u" =
      some stored ∧ stored.summary = "S") :=
  ⟨rfl, rfl, ⟨_, rfl, rfl⟩⟩

/-- C6 (amended): when the first target has a stored Article with a
non-empty summary the strategy returns that precomputed summary and leaves
the store alone; in BOTH on-demand triggers — the article missing from the
store, or stored with an empty summary — the strategy does not fail with a
not-found error: a successful fetch, prompt rendering and generative call
yield the synthesized text with nil error and store the (new or updated)
article under the target URL. The strategy errors only when the on-demand
fetch, the summarize-prompt construction, or the generative call fails. -/
theorem summarize_amended :
    (∀ (env : Env) (t : Table) (plan : QueryPlan) (url : String)
       (rest : List String) (a : Article),
       plan.targets = url :: rest → findByURL t url = some a → a.summary ≠ "" →
       summarizeArticle env t plan = (.ok a.summary, t)) ∧
    (∀ (env : Env) (t : Table) (plan : QueryPlan) (url : String)
       (rest : List String) (d : ParsedArticle) (p s : String),
       plan.targets = url :: rest → findByURL t url = none →
       env.fetch url = .ok d →
       env.createSummarizePrompt d.textContent = .ok p →
       env.generate p = .ok s →
       (summarizeArticle env t plan).1 = .ok s ∧
       (findByURL (summarizeArticle env t plan).2 url).isSome = true) ∧
    (∀ (env : Env) (t : Table) (plan : QueryPlan) (url : String)
       (rest : List String) (a : Article) (d : ParsedArticle) (p s : String),
       plan.targets = url :: rest → findByURL t url = some a → a.summary = "" →
       env.fetch url = .ok d →
       env.createSummarizePrompt d.textContent = .ok p →
       env.generate p = .ok s →
       (summarizeArticle env t plan).1 = .ok s ∧
       (findByURL (summarizeArticle env t plan).2 url).isSome = true) := by
  refine ⟨?_, ?_, ?_⟩
  · intro env t plan url rest a hts hfind ha
    simp [summarizeArticle, hts, hfind, ha]
  · intro env t plan url rest d p s hts hfind hfetch hprompt hgen
    refine ⟨?_, ?_⟩
    · simp [summarizeArticle, hts, hfind, hfetch, hprompt, hgen]
    · simp only [summarizeArticle, hts, hfind, hfetch, hprompt, hgen]
      exact findByURL_save_isSome t _
  · intro env t plan url rest a d p s hts hfind hsum hfetch hprompt hgen
    have haurl : a.url = url := findByURL_url t url a hfind
    have hred : summarizeArticle env t plan =
        (.ok s, save t
          { url := url, title := d.title, excerpt := d.excerpt,
            textContent := a.textContent, summary := s,
            sentiment := a.sentiment, topics := a.topics,
            entities := a.entities, processedAt := a.processedAt }) := by
      simp [summarizeArticle, hts, hfind, hsum, haurl, hfetch, hprompt, hgen]
    rw [hred]
    exact ⟨rfl, findByURL_save_isSome2 t _ url rfl⟩

/-- C6 witness: the three branches at concrete inputs — the precomputed
summary "S1" for the stored "u1", on-demand synthesis for the unstored
"u", and on-demand synthesis for the stored but summary-less "u4". -/
theorem summarize_amended_witness :
    summarizeArticle envTriv exampleTable
      { intent := "SUMMARIZE", targets := ["u1"], parameters := [], question := "" } =
      (.ok "S1", exampleTable) ∧
    ((summarizeArticle envSummarizeOk [] planSummarizeU).1 = .ok "S" ∧
      (findByURL (summarizeArticle envSummarizeOk [] planSummarizeU).2 "u").isSome = true) ∧
    ((summarizeArticle envSummarizeOk emptySummaryTable planSummarizeU4).1 = .ok "S" ∧
      (findByURL (summarizeArticle envSummarizeOk emptySummaryTable planSummarizeU4).2 "u4").isSome = true) :=
  ⟨summarize_amended.1 envTriv exampleTable
      { intent := "SUMMARIZE", targets := ["u1"], parameters := [], question := "" }
      "u1" [] (rowToArticle rowOne) rfl rfl (by decide),
   summarize_amended.2.1 envSummarizeOk [] planSummarizeU "u" []
      { title := "T", textContent := "X", excerpt := "E" } "P" "S" rfl rfl rfl rfl rfl,
   summarize_amended.2.2 envSummarizeOk emptySummaryTable planSummarizeU4 "u4" []
      (rowToArticle rowEmptySummary)
      { title := "T", textContent := "X", excerpt := "E" } "P" "S"
      rfl rfl rfl rfl rfl rfl⟩

/-- C7 counterexample: `CompareMultiple` given one resolvable target
("u1") and one unresolvable URL ("zz") does NOT return a non-error
insufficient-data message — it returns an error. -/
theorem compareMultiple_unresolvable_errors :
    (∃ a, findByURL oneArticleTable "u1" = some a) ∧
    findByURL oneArticleTable "zz" = none ∧
    compareMultipleArticles envTriv oneArticleTable planCompareMulti =
      (.error "could not find article with URL: zz", oneArticleTable) :=
  ⟨⟨_, rfl⟩, rfl, rfl⟩

/-- C7 (amended): with fewer than 2 resolvable targets none of the
comparison strategies produces a comparison, but they disagree on the
failure mode: ComparePositivity and CompareTone return non-error
messages, while CompareMultiple returns an error naming the first
unresolvable URL. -/
theorem comparison_insufficient_data_amended :
    (∀ (env : Env) (t : Table) (plan : QueryPlan) (topic : String)
       (ps : List String) (t1 t2 : String) (rest : List String),
       plan.parameters = topic :: ps → plan.targets = t1 :: t2 :: rest →
       (findByURL t t1 = none ∨ findByURL t t2 = none) →
       comparePositivity env t plan =
         (.ok "Could not find one or both of the specified articles.", t)) ∧
    (∀ (env : Env) (t : Table) (plan : QueryPlan) (t1 t2 : String)
       (rest : List String),
       plan.targets = t1 :: t2 :: rest → findByURL t t1 = none →
       compareToneArticles env t plan = (.ok ("Article not found: " ++ t1), t)) ∧
    (∀ (env : Env) (t : Table) (plan : QueryPlan) (t1 t2 : String) (a1 : Article),
       plan.targets = [t1, t2] → findByURL t t1 = some a1 →
       findByURL t t2 = none →
       compareMultipleArticles env t plan =
         (.error ("could not find article with URL: " ++ t2), t)) := by
  refine ⟨?_, ?_, ?_⟩
  · intro env t plan topic ps t1 t2 rest hpar hts hmiss
    rcases hmiss with h | h
    · cases hf2 : findByURL t t2 with
      | none => simp [comparePositivity, hpar, hts, h, hf2]
      | some a2 => simp [comparePositivity, hpar, hts, h, hf2]
    · cases hf1 : findByURL t t1 with
      | none => simp [comparePositivity, hpar, hts, h, hf1]
      | some a1 => simp [comparePositivity, hpar, hts, h, hf1]
  · intro env t plan t1 t2 rest hts h1
    simp [compareToneArticles, hts, h1]
  · intro env t plan t1 t2 a1 hts h1 h2
    simp [compareMultipleArticles, hts, collectArticles, h1, h2]

/-- C7 witness: the three behaviours at concrete inputs, each with target
"zz" (or "u1" on the empty store) unresolvable. -/
theorem comparison_insufficient_data_amended_witness :
    comparePositivity envTriv oneArticleTable planComparePos =
      (.ok "Could not find one or both of the specified articles.", oneArticleTable) ∧
    compareToneArticles envTriv [] planCompareMulti =
      (.ok ("Article not found: " ++ "u1"), []) ∧
    compareMultipleArticles envTriv oneArticleTable planCompareMulti =
      (.error ("could not find article with URL: " ++ "zz"), oneArticleTable) :=
  ⟨comparison_insufficient_data_amended.1 envTriv oneArticleTable planComparePos
     "topic" [] "u1" "zz" [] rfl rfl (Or.inr rfl),
   comparison_insufficient_data_amended.2.1 envTriv [] planCompareMulti
     "u1" "zz" [] rfl rfl,
   comparison_insufficient_data_amended.2.2 envTriv oneArticleTable planCompareMulti
     "u1" "zz" (rowToArticle rowOne) rfl rfl rfl⟩

/-! ## Selection-sort lemmas for the entity aggregation -/

theorem selPass_le_fst : ∀ (c : EntityCount) (l : List EntityCount),
    c.count ≤ (selPass c l).1.count := by
  intro c l
  induction l generalizing c with
  | nil => exact le_refl _
  | cons x xs ih =>
    by_cases h : c.count < x.count
    · simp only [selPass, if_pos h]
      exact le_trans (le_of_lt h) (ih x)
    · simp only [selPass, if_neg h]
      exact ih c

theorem selPass_snd_le_fst : ∀ (c : EntityCount) (l : List EntityCount),
    ∀ y ∈ (selPass c l).2, y.count ≤ (selPass c l).1.count := by
  intro c l
  induction l generalizing c with
  | nil => intro y hy; simp [selPass] at hy
  | cons x xs ih =>
    intro y hy
    by_cases h : c.count < x.count
    · simp only [selPass, if_pos h] at hy ⊢
      rcases List.mem_cons.mp hy with rfl | hy2
      · exact le_trans (le_of_lt h) (selPass_le_fst x xs)
      · exact ih x y hy2
    · simp only [selPass, if_neg h] at hy ⊢
      rcases List.mem_cons.mp hy with rfl | hy2
      · exact le_trans (le_of_not_lt h) (selPass_le_fst c xs)
      · exact ih c y hy2

theorem selPass_fst_mem : ∀ (c : EntityCount) (l : List EntityCount),
    (selPass c l).1 ∈ c :: l := by
  intro c l
  induction l generalizing c with
  | nil => simp [selPass]
  | cons x xs ih =>
    by_cases h : c.count < x.count
    · simp only [selPass, if_pos h]
      have := ih x
      simp only [List.mem_cons] at this ⊢
      tauto
    · simp only [selPass, if_neg h]
      have := ih c
      simp only [List.mem_cons] at this ⊢
      tauto

theorem selPass_snd_subset : ∀ (c : EntityCount) (l : List EntityCount),
    ∀ y ∈ (selPass c l).2, y ∈ c :: l := by
  intro c l
  induction l generalizing c with
  | nil => intro y hy; simp [selPass] at hy
  | cons x xs ih =>
    intro y hy
    by_cases h : c.count < x.count
    · simp only [selPass, if_pos h] at hy
      rcases List.mem_cons.mp hy with rfl | hy2
      · simp
      · have := ih x y hy2
        simp only [List.mem_cons] at this ⊢
        tauto
    · simp only [selPass, if_neg h] at hy
      rcases List.mem_cons.mp hy with rfl | hy2
      · simp
      · have := ih c y hy2
        simp only [List.mem_cons] at this ⊢
        tauto

theorem selPass_length : ∀ (c : EntityCount) (l : List EntityCount),
    (selPass c l).2.length = l.length := by
  intro c l
  induction l generalizing c with
  | nil => rfl
  | cons x xs ih =>
    by_cases h : c.count < x.count
    · simp only [selPass, if_pos h, List.length_cons, ih x]
    · simp only [selPass, if_neg h, List.length_cons, ih c]

theorem selSortFuel_subset : ∀ (n : Nat) (l : List EntityCount),
    ∀ y ∈ selSortFuel n l, y ∈ l := by
  intro n
  induction n with
  | zero => intro l y hy; simp [selSortFuel] at hy
  | succ n ih =>
    intro l y hy
    cases l with
    | nil => simp [selSortFuel] at hy
    | cons x xs =>
      simp only [selSortFuel, List.mem_cons] at hy
      rcases hy with rfl | hy2
      · exact selPass_fst_mem x xs
      · have h2 := ih _ y hy2
        exact selPass_snd_subset x xs y h2

theorem selSortFuel_pairwise : ∀ (n : Nat) (l : List EntityCount),
    l.length ≤ n →
    List.Pairwise (fun a b => b.count ≤ a.count) (selSortFuel n l) := by
  intro n
  induction n with
  | zero => intro l _; exact List.Pairwise.nil
  | succ n ih =>
    intro l hl
    cases l with
    | nil => exact List.Pairwise.nil
    | cons x xs =>
      simp only [selSortFuel]
      refine List.Pairwise.cons ?_ ?_
      · intro b hb
        have hmem := selSortFuel_subset n _ b hb
        exact selPass_snd_le_fst x xs b hmem
      · refine ih _ ?_
        rw [selPass_length]
        simpa using Nat.le_of_succ_le_succ hl

/-- The nested-loop selection sort leaves the counts in non-increasing
order. -/
theorem selSort_pairwise (l : List EntityCount) :
    List.Pairwise (fun a b => b.count ≤ a.count) (selSort l) :=
  selSortFuel_pairwise l.length l (le_refl _)

/-- C5 (amended): `FindCommonEntities` returns at most 10 entity counts in
non-increasing count order, and over the spec's example — topics
`["AI","AI","Cloud"]` and `["Cloud"]` — returns `[{AI,2},{Cloud,2}]`; but
equal counts carry no lexicographic tie-break: their relative order
follows the map's iteration order (unspecified in Go, first-insertion
order in this model) filtered through an unstable selection sort, so the
spec's example order arises from encounter order, not from an
alphabetical rule (see the counterexample). -/
theorem findCommonEntities_amended :
    (∀ (t : Table) (urls : List String),
       (findCommonEntitiesSvc t urls).length ≤ 10 ∧
       List.Pairwise (fun a b => b.count ≤ a.count) (findCommonEntitiesSvc t urls)) ∧
    findCommonEntitiesSvc exampleTable [] =
      [{ entity := "AI", count := 2 }, { entity := "Cloud", count := 2 }] := by
  constructor
  · intro t urls
    unfold findCommonEntitiesSvc
    by_cases h : (if urls.length = 0 then findAll t else urls.filterMap (findByURL t)).length = 0
    · simp only [if_pos h]
      exact ⟨by simp, List.Pairwise.nil⟩
    · simp only [if_neg h]
      constructor
      · simp only [List.length_take]
        exact le_trans (min_le_left _ _) (min_le_left _ _)
      · exact List.Pairwise.sublist (List.take_sublist _ _) (selSort_pairwise _)
  · decide

/-- C5 counterexample: an article whose equal-count topics are first
encountered as Cloud before AI makes `FindCommonEntities` return
`[{Cloud,2},{AI,2}]` although `"AI" < "Cloud"` — on equal counts the
output is NOT ordered by ascending lexicographic entity name, so the
claimed tie-break does not exist in the code. -/
theorem findCommonEntities_tie_not_lexicographic :
    findCommonEntitiesSvc tieTable [] =
      [{ entity := "Cloud", count := 2 }, { entity := "AI", count := 2 }] ∧
    strLt "AI" "Cloud" = true :=
  ⟨by decide, by decide⟩

end ArticleChat
